import Mathlib

/-!
# CMakeBuildSettingsWidget: enable/visibility logic of the CMake settings panel

A shallow embedding of `src/cmakebuildsettingswidget.cpp`.

* Every Qt control the file touches is a `QWidget` record of the properties the
  file reads or writes: the visibility flag written by `setVisible`/`hide`/`show`,
  the enabled flag written by `setEnabled`/`setDisabled`, the checked flag, the
  text and the tool tip.
* The collaborators the widget only holds pointers to (the build configuration
  and the configuration model) are passed to every member function as the
  values their getters return at the time of the call.
* Signal connections made by the constructor are followed by hand: a Qt call
  that emits a connected signal runs the connected slot at that point.
* The enabled flag of a control is what this file's own `setEnabled` and
  `setDisabled` calls write. What a checkable `QGroupBox` does to its children
  by itself when its check state changes is not tracked; no control outside the
  group box is affected by it.
-/

namespace CMakeProjectManager
namespace Internal

/-! ## Collaborator types -/

/-- Modelled from the spec: the override kind of the toolchain record
("override kind: disabled/file/inline"); the enumeration
`CMakeToolchainOverrideType` is declared in a header outside this file. -/
inductive CMakeToolchainOverrideType where
  | Disabled
  | File
  | Inline
  deriving DecidableEq, Repr

/-- Modelled from the spec: the toolchain-info record ("override kind; file path
string; inline script text"); `CMakeToolchainInfo` is declared in a header
outside this file. The three named fields are the ones this file reads and
writes; `rest` stands for whatever else the record holds. -/
structure CMakeToolchainInfo (ρ : Type) where
  toolchainOverride : CMakeToolchainOverrideType
  toolchainFile : String
  toolchainInline : String
  rest : ρ
  deriving DecidableEq, Repr

/-- What the widget reads from `CMakeBuildConfiguration *m_buildConfiguration`:
the results of `isParsing()`, `error()` and `cmakeToolchainInfo()`. -/
structure CMakeBuildConfiguration (ρ : Type) where
  isParsing : Bool
  error : String
  cmakeToolchainInfo : CMakeToolchainInfo ρ
  deriving DecidableEq, Repr

/-- What the widget reads from `ConfigModel *m_configModel`: the results of
`hasChanges()`, `hasCMakeChanges()` and `configurationChanges()`; `κ` is the
type of a configuration (`CMakeConfig`). -/
structure ConfigModel (κ : Type) where
  hasChanges : Bool
  hasCMakeChanges : Bool
  configurationChanges : κ
  deriving DecidableEq, Repr

/-- The call `setCurrentCMakeConfiguration(config, info)` made on the build
configuration: the two arguments it is handed. -/
structure SetCurrentCMakeConfiguration (ρ κ : Type) where
  config : κ
  info : CMakeToolchainInfo ρ
  deriving DecidableEq, Repr

/-! ## Qt controls -/

/-- The properties of a Qt control this file reads or writes. `visible` is the
flag written by `setVisible` (and `show`/`hide`), `enabled` the flag written by
`setEnabled` (and `setDisabled`). A freshly created control is enabled, not
hidden, unchecked, with empty text and tool tip. -/
structure QWidget where
  visible : Bool
  enabled : Bool
  checked : Bool
  text : String
  toolTip : String
  deriving DecidableEq, Repr

/-- A control as `new QLabel`, `new QPushButton(text)`, ... leaves it. -/
def QWidget.create (text : String) : QWidget :=
  { visible := true, enabled := true, checked := false, text := text, toolTip := "" }

/-- `Qt::DisplayRole` / `Qt::EditRole`, the two filter roles the file uses. -/
inductive ItemDataRole where
  | DisplayRole
  | EditRole
  deriving DecidableEq, Repr

/-! ## The widget -/

/-- The state of a `CMakeBuildSettingsWidget`: its member controls (named as in
the class), whether the single-shot `m_showProgressTimer` is running, the filter
role of `m_configFilterModel`, and the stored inline toolchain script. -/
structure CMakeBuildSettingsWidget where
  m_errorLabel : QWidget
  m_errorMessageLabel : QWidget
  m_configView : QWidget
  m_editButton : QWidget
  m_resetButton : QWidget
  m_showAdvancedCheckBox : QWidget
  m_reconfigureButton : QWidget
  m_toolchainGroupBox : QWidget
  m_toolchainLineEdit : QWidget
  m_toolchainFileSelectPushButton : QWidget
  m_toolchainEditPushButton : QWidget
  m_fileToolchainRadioButton : QWidget
  m_inlineToolchainRadioButton : QWidget
  m_progressIndicator : QWidget
  m_showProgressTimerActive : Bool
  m_configFilterRole : ItemDataRole
  m_toolchainInlineCurrent : String
  deriving DecidableEq, Repr

namespace CMakeBuildSettingsWidget

variable {ρ κ : Type}

/-- `CMakeBuildSettingsWidget::setError` (lines 281-295). -/
def setError (message : String) (w : CMakeBuildSettingsWidget) : CMakeBuildSettingsWidget :=
  let showWarning := !message.isEmpty
  { w with
    m_errorLabel := { w.m_errorLabel with visible := showWarning, toolTip := message }
    m_errorMessageLabel :=
      { w.m_errorMessageLabel with visible := showWarning, text := message, toolTip := message }
    m_configView := { w.m_configView with visible := !showWarning }
    m_editButton := { w.m_editButton with visible := !showWarning }
    m_resetButton := { w.m_resetButton with visible := !showWarning }
    m_showAdvancedCheckBox := { w.m_showAdvancedCheckBox with visible := !showWarning }
    m_reconfigureButton := { w.m_reconfigureButton with visible := !showWarning } }

/-- `CMakeBuildSettingsWidget::currentToolchainInfo` (lines 320-335). -/
def currentToolchainInfo (bc : CMakeBuildConfiguration ρ) (w : CMakeBuildSettingsWidget) :
    CMakeToolchainInfo ρ :=
  let curr := bc.cmakeToolchainInfo
  let curr := { curr with toolchainOverride := CMakeToolchainOverrideType.Disabled }
  let curr := { curr with toolchainFile := w.m_toolchainLineEdit.text }
  let curr := { curr with toolchainInline := w.m_toolchainInlineCurrent }
  if w.m_toolchainGroupBox.checked then
    if w.m_fileToolchainRadioButton.checked then
      { curr with toolchainOverride := CMakeToolchainOverrideType.File }
    else if w.m_inlineToolchainRadioButton.checked then
      { curr with toolchainOverride := CMakeToolchainOverrideType.Inline }
    else curr
  else curr

/-- The comparison `hasToolchainChanges` of `updateButtonState` (lines 307-309). -/
def hasToolchainChanges (curr prev : CMakeToolchainInfo ρ) : Bool :=
  curr.toolchainOverride != prev.toolchainOverride ||
    curr.toolchainFile != prev.toolchainFile ||
    curr.toolchainInline != prev.toolchainInline

/-- `CMakeBuildSettingsWidget::updateButtonState` (lines 297-312). -/
def updateButtonState (bc : CMakeBuildConfiguration ρ) (cm : ConfigModel κ)
    (w : CMakeBuildSettingsWidget) : CMakeBuildSettingsWidget :=
  let isParsing := bc.isParsing
  let hasChanges := cm.hasChanges
  let w := { w with m_resetButton := { w.m_resetButton with enabled := hasChanges && !isParsing } }
  let prev := bc.cmakeToolchainInfo
  let curr := currentToolchainInfo bc w
  let toolchainChanged := hasToolchainChanges curr prev
  { w with
    m_reconfigureButton :=
      { w.m_reconfigureButton with
        enabled := (hasChanges || toolchainChanged || cm.hasCMakeChanges) && !isParsing } }

/-- `CMakeBuildSettingsWidget::updateAdvancedCheckBox` (lines 314-318). -/
def updateAdvancedCheckBox (w : CMakeBuildSettingsWidget) : CMakeBuildSettingsWidget :=
  { w with
    m_configFilterRole :=
      if w.m_showAdvancedCheckBox.checked then ItemDataRole.EditRole else ItemDataRole.DisplayRole }

/-- `CMakeBuildSettingsWidget::toolchainRadio` (lines 384-390). -/
def toolchainRadio (bc : CMakeBuildConfiguration ρ) (cm : ConfigModel κ)
    (w : CMakeBuildSettingsWidget) : CMakeBuildSettingsWidget :=
  let w := { w with
    m_toolchainLineEdit :=
      { w.m_toolchainLineEdit with enabled := w.m_fileToolchainRadioButton.checked } }
  let w := { w with
    m_toolchainFileSelectPushButton :=
      { w.m_toolchainFileSelectPushButton with enabled := w.m_fileToolchainRadioButton.checked } }
  let w := { w with
    m_toolchainEditPushButton :=
      { w.m_toolchainEditPushButton with enabled := w.m_inlineToolchainRadioButton.checked } }
  updateButtonState bc cm w

/-- `CMakeBuildSettingsWidget::toolchainEdit` (lines 365-382). `sampleToolchain`
is the content of the bundled resource `inlinetoolchainexample.cmake`;
`getContent` is `CMakeInlineEditorDialog::getContent`, taking the initial
content and returning the edited content with the `ok` flag. -/
def toolchainEdit (sampleToolchain : String) (getContent : String → String × Bool)
    (bc : CMakeBuildConfiguration ρ) (cm : ConfigModel κ)
    (w : CMakeBuildSettingsWidget) : CMakeBuildSettingsWidget :=
  let current := w.m_toolchainInlineCurrent
  let current := if current.isEmpty then sampleToolchain else current
  let (content, ok) := getContent current
  let w := if ok then { w with m_toolchainInlineCurrent := content } else w
  updateButtonState bc cm w

/-- The slot connected to `m_reconfigureButton`'s `clicked` (lines 237-239): the
call made on the build configuration, and the widget afterwards. -/
def reconfigureButtonClicked (bc : CMakeBuildConfiguration ρ) (cm : ConfigModel κ)
    (w : CMakeBuildSettingsWidget) :
    SetCurrentCMakeConfiguration ρ κ × CMakeBuildSettingsWidget :=
  ({ config := cm.configurationChanges, info := currentToolchainInfo bc w }, w)

/-- `QAbstractButton::setChecked(true)` called on `m_fileToolchainRadioButton`.
Nothing happens when the button is already checked. Otherwise it becomes
checked; radio buttons are auto-exclusive, so a checked sibling is unchecked,
and that sibling's `toggled` runs `toolchainRadio` (line 260); then the button's
own `toggled` runs `toolchainRadio` (line 259). -/
def fileToolchainRadioButtonSetChecked (bc : CMakeBuildConfiguration ρ) (cm : ConfigModel κ)
    (w : CMakeBuildSettingsWidget) : CMakeBuildSettingsWidget :=
  if w.m_fileToolchainRadioButton.checked then w
  else
    let w := { w with m_fileToolchainRadioButton := { w.m_fileToolchainRadioButton with checked := true } }
    let w :=
      if w.m_inlineToolchainRadioButton.checked then
        toolchainRadio bc cm
          { w with m_inlineToolchainRadioButton := { w.m_inlineToolchainRadioButton with checked := false } }
      else w
    toolchainRadio bc cm w

/-- `QAbstractButton::setChecked(true)` called on `m_inlineToolchainRadioButton`;
see `fileToolchainRadioButtonSetChecked`. -/
def inlineToolchainRadioButtonSetChecked (bc : CMakeBuildConfiguration ρ) (cm : ConfigModel κ)
    (w : CMakeBuildSettingsWidget) : CMakeBuildSettingsWidget :=
  if w.m_inlineToolchainRadioButton.checked then w
  else
    let w := { w with m_inlineToolchainRadioButton := { w.m_inlineToolchainRadioButton with checked := true } }
    let w :=
      if w.m_fileToolchainRadioButton.checked then
        toolchainRadio bc cm
          { w with m_fileToolchainRadioButton := { w.m_fileToolchainRadioButton with checked := false } }
      else w
    toolchainRadio bc cm w

/-- The controls as the constructor creates them (lines 106-203), before it
calls any member function: the two error labels and the progress indicator
hidden, the reset and reconfigure buttons disabled, the group box made
checkable (a checkable `QGroupBox` starts checked), the timer not started. -/
def created : CMakeBuildSettingsWidget :=
  { m_errorLabel := { QWidget.create "" with visible := false }
    m_errorMessageLabel := { QWidget.create "" with visible := false }
    m_configView := QWidget.create ""
    m_progressIndicator := { QWidget.create "" with visible := false }
    m_showProgressTimerActive := false
    m_configFilterRole := ItemDataRole.DisplayRole
    m_editButton := QWidget.create "&Edit"
    m_resetButton := { QWidget.create "&Reset" with enabled := false }
    m_showAdvancedCheckBox := QWidget.create "Advanced"
    m_toolchainGroupBox := { QWidget.create "Override toolchain:" with checked := true }
    m_toolchainLineEdit := QWidget.create ""
    m_toolchainFileSelectPushButton := QWidget.create "Browse..."
    m_toolchainEditPushButton := QWidget.create "Edit"
    m_fileToolchainRadioButton := QWidget.create "Toolchain file:"
    m_inlineToolchainRadioButton := QWidget.create "Inline Toolchain:"
    m_reconfigureButton := { QWidget.create "Apply Configuration Changes" with enabled := false }
    m_toolchainInlineCurrent := "" }

/-- The toolchain initialisation at the end of the constructor (lines 262-278),
run after the radio buttons' `toggled` have been connected to `toolchainRadio`
(lines 259-260). The group box's `clicked` is the only group-box signal
connected, and `setChecked` does not emit it. -/
def initToolchain (bc : CMakeBuildConfiguration ρ) (cm : ConfigModel κ)
    (w : CMakeBuildSettingsWidget) : CMakeBuildSettingsWidget :=
  let info := bc.cmakeToolchainInfo
  let w := { w with m_toolchainInlineCurrent := info.toolchainInline }
  let w := { w with m_toolchainGroupBox := { w.m_toolchainGroupBox with checked := false } }
  let w := { w with m_toolchainLineEdit := { w.m_toolchainLineEdit with enabled := false } }
  let w := { w with m_toolchainEditPushButton := { w.m_toolchainEditPushButton with enabled := false } }
  let w := { w with
    m_toolchainFileSelectPushButton := { w.m_toolchainFileSelectPushButton with enabled := false } }
  let w :=
    if info.toolchainOverride != CMakeToolchainOverrideType.Disabled then
      let w := { w with m_toolchainGroupBox := { w.m_toolchainGroupBox with checked := true } }
      if info.toolchainOverride == CMakeToolchainOverrideType.File then
        fileToolchainRadioButtonSetChecked bc cm w
      else if info.toolchainOverride == CMakeToolchainOverrideType.Inline then
        inlineToolchainRadioButtonSetChecked bc cm w
      else w
    else w
  { w with m_toolchainLineEdit := { w.m_toolchainLineEdit with text := info.toolchainFile } }

/-- The constructor `CMakeBuildSettingsWidget::CMakeBuildSettingsWidget(bc)`
(lines 64-279): the widget it leaves. `cm` is what `m_configModel` reports while
the constructor runs (after `setConfiguration` at line 216 when not parsing). -/
def construct (bc : CMakeBuildConfiguration ρ) (cm : ConfigModel κ) : CMakeBuildSettingsWidget :=
  let w := created
  let w := updateAdvancedCheckBox w
  let w := setError bc.error w
  let w := if bc.isParsing then { w with m_showProgressTimerActive := true } else w
  initToolchain bc cm w

/-! ## Progress spinner: the events and their handlers -/

/-- The three events of the progress spinner. `parsingStarted` and
`dataAvailable` carry what the collaborators report when the handler runs. -/
inductive Event (ρ κ : Type) where
  | parsingStarted (bc : CMakeBuildConfiguration ρ) (cm : ConfigModel κ)
  | timeout
  | dataAvailable (bc : CMakeBuildConfiguration ρ) (cm : ConfigModel κ)

/-- Whether the event is a `dataAvailable`. -/
def Event.isDataAvailable : Event ρ κ → Bool
  | Event.dataAvailable _ _ => true
  | _ => false

/-- Whether the event is a timer `timeout`. -/
def Event.isTimeout : Event ρ κ → Bool
  | Event.timeout => true
  | _ => false

/-- One event. `parsingStarted` runs the handler of lines 208-211 (update the
buttons, start the timer). `timeout` can only occur while the single-shot timer
runs; the timer then stops and the handler of line 145 shows the spinner.
`dataAvailable` runs the handler of lines 218-226 (update the buttons, stop the
timer, hide the spinner; its other calls act on collaborators). -/
def step (w : CMakeBuildSettingsWidget) : Event ρ κ → Option CMakeBuildSettingsWidget
  | Event.parsingStarted bc cm =>
      let w := updateButtonState bc cm w
      some { w with m_showProgressTimerActive := true }
  | Event.timeout =>
      if w.m_showProgressTimerActive then
        let w := { w with m_showProgressTimerActive := false }
        some { w with m_progressIndicator := { w.m_progressIndicator with visible := true } }
      else none
  | Event.dataAvailable bc cm =>
      let w := updateButtonState bc cm w
      let w := { w with m_showProgressTimerActive := false }
      some { w with m_progressIndicator := { w.m_progressIndicator with visible := false } }

/-- A sequence of events, from the left; `none` when a `timeout` is asked of a
timer that is not running. -/
def run (w : CMakeBuildSettingsWidget) : List (Event ρ κ) → Option CMakeBuildSettingsWidget
  | [] => some w
  | e :: es => (step w e).bind fun w1 => run w1 es

/-! ## The claim of C4 as written -/

/-- Every control of the panel other than the error labels is disabled. -/
def restOfPanelDisabled (w : CMakeBuildSettingsWidget) : Bool :=
  !w.m_configView.enabled && !w.m_editButton.enabled && !w.m_resetButton.enabled &&
    !w.m_reconfigureButton.enabled && !w.m_showAdvancedCheckBox.enabled &&
    !w.m_toolchainGroupBox.enabled && !w.m_toolchainLineEdit.enabled &&
    !w.m_toolchainFileSelectPushButton.enabled && !w.m_toolchainEditPushButton.enabled

/-! ## Sample inputs -/

/-- A build configuration that is not parsing, has no error, and stores a file
override with a toolchain file path. -/
def sampleFileOverride : CMakeBuildConfiguration Unit :=
  { isParsing := false
    error := ""
    cmakeToolchainInfo :=
      { toolchainOverride := CMakeToolchainOverrideType.File
        toolchainFile := "/opt/arm/toolchain.cmake"
        toolchainInline := ""
        rest := () } }

/-- A configuration model without changes. -/
def sampleCleanModel : ConfigModel Unit :=
  { hasChanges := false, hasCMakeChanges := false, configurationChanges := () }

/-- A build configuration that is parsing. -/
def sampleParsing : CMakeBuildConfiguration Unit :=
  { sampleFileOverride with isParsing := true }

/-- A configuration model with changes. -/
def sampleChangedModel : ConfigModel Unit :=
  { hasChanges := true, hasCMakeChanges := true, configurationChanges := () }

/-- Two reloads on a build configuration that is parsing when the panel opens:
the first one's timer fires before its data arrives, the second one's data
arrives first. -/
def sampleReloads : List (Event Unit Unit) :=
  [Event.timeout, Event.dataAvailable sampleFileOverride sampleCleanModel,
    Event.parsingStarted sampleParsing sampleCleanModel,
    Event.dataAvailable sampleFileOverride sampleCleanModel]

/-! ## Theorems -/

/-- Claim C1: `currentToolchainInfo()` is the build configuration's record with
the file path replaced by the line edit's text, the inline script by the stored
inline text, and the override kind by File (group box and file radio checked),
Inline (group box checked, file radio unchecked, inline radio checked) or
Disabled (every other case); the rest of the record is the build
configuration's. -/
theorem currentToolchainInfo_replaces_three_fields (bc : CMakeBuildConfiguration ρ)
    (w : CMakeBuildSettingsWidget) :
    currentToolchainInfo bc w =
        { toolchainOverride := (currentToolchainInfo bc w).toolchainOverride
          toolchainFile := w.m_toolchainLineEdit.text
          toolchainInline := w.m_toolchainInlineCurrent
          rest := bc.cmakeToolchainInfo.rest } ∧
      ((currentToolchainInfo bc w).toolchainOverride = CMakeToolchainOverrideType.File ↔
        w.m_toolchainGroupBox.checked = true ∧ w.m_fileToolchainRadioButton.checked = true) ∧
      ((currentToolchainInfo bc w).toolchainOverride = CMakeToolchainOverrideType.Inline ↔
        w.m_toolchainGroupBox.checked = true ∧ w.m_fileToolchainRadioButton.checked = false ∧
          w.m_inlineToolchainRadioButton.checked = true) ∧
      ((currentToolchainInfo bc w).toolchainOverride = CMakeToolchainOverrideType.Disabled ↔
        w.m_toolchainGroupBox.checked = false ∨
          (w.m_fileToolchainRadioButton.checked = false ∧
            w.m_inlineToolchainRadioButton.checked = false)) := by
  unfold currentToolchainInfo
  cases w.m_toolchainGroupBox.checked <;> cases w.m_fileToolchainRadioButton.checked <;>
    cases w.m_inlineToolchainRadioButton.checked <;> simp

/-- Claim C2: after `updateButtonState()` the reconfigure button is enabled iff
the build configuration is not parsing and the model has changes, or has CMake
changes, or `currentToolchainInfo()` differs from the stored record in override
kind, file path or inline script; the reset button is enabled iff the model has
changes and the build configuration is not parsing; neither is enabled while
parsing. -/
theorem updateButtonState_enables (bc : CMakeBuildConfiguration ρ) (cm : ConfigModel κ)
    (w : CMakeBuildSettingsWidget) :
    ((updateButtonState bc cm w).m_reconfigureButton.enabled = true ↔
        bc.isParsing = false ∧
          (cm.hasChanges = true ∨ cm.hasCMakeChanges = true ∨
            (currentToolchainInfo bc w).toolchainOverride ≠ bc.cmakeToolchainInfo.toolchainOverride ∨
            (currentToolchainInfo bc w).toolchainFile ≠ bc.cmakeToolchainInfo.toolchainFile ∨
            (currentToolchainInfo bc w).toolchainInline ≠ bc.cmakeToolchainInfo.toolchainInline)) ∧
      ((updateButtonState bc cm w).m_resetButton.enabled = true ↔
        cm.hasChanges = true ∧ bc.isParsing = false) ∧
      (bc.isParsing = true →
        (updateButtonState bc cm w).m_reconfigureButton.enabled = false ∧
          (updateButtonState bc cm w).m_resetButton.enabled = false) := by
  have hcur : currentToolchainInfo bc
      { w with m_resetButton := { w.m_resetButton with enabled := cm.hasChanges && !bc.isParsing } }
      = currentToolchainInfo bc w := rfl
  simp only [updateButtonState, hcur, hasToolchainChanges]
  cases bc.isParsing <;> cases cm.hasChanges <;> cases cm.hasCMakeChanges <;> (simp; try tauto)

/-- Claim C2 at a parsing build configuration whose model has changes: both
buttons end up disabled. -/
theorem updateButtonState_enables_witness :
    sampleParsing.isParsing = true ∧
      (updateButtonState sampleParsing sampleChangedModel created).m_reconfigureButton.enabled = false ∧
      (updateButtonState sampleParsing sampleChangedModel created).m_resetButton.enabled = false :=
  ⟨rfl, (updateButtonState_enables sampleParsing sampleChangedModel created).2.2 rfl⟩

/-- Claim C3: after `setError(message)` the two error labels are visible iff the
message is non-empty, the message label shows the message, and the
configuration view, edit button, reset button, advanced check box and
reconfigure button are visible iff the message is empty; no error label is
visible together with one of those five controls. -/
theorem setError_visibility (message : String) (w : CMakeBuildSettingsWidget) :
    ((setError message w).m_errorLabel.visible = true ↔ message ≠ "") ∧
      ((setError message w).m_errorMessageLabel.visible = true ↔ message ≠ "") ∧
      (setError message w).m_errorMessageLabel.text = message ∧
      ((setError message w).m_configView.visible = true ↔ message = "") ∧
      ((setError message w).m_editButton.visible = true ↔ message = "") ∧
      ((setError message w).m_resetButton.visible = true ↔ message = "") ∧
      ((setError message w).m_showAdvancedCheckBox.visible = true ↔ message = "") ∧
      ((setError message w).m_reconfigureButton.visible = true ↔ message = "") ∧
      (∀ label ∈ [(setError message w).m_errorLabel, (setError message w).m_errorMessageLabel],
        ∀ control ∈ [(setError message w).m_configView, (setError message w).m_editButton,
            (setError message w).m_resetButton, (setError message w).m_showAdvancedCheckBox,
            (setError message w).m_reconfigureButton],
          ¬ (label.visible = true ∧ control.visible = true)) := by
  have hempty : message.isEmpty = true ↔ message = "" := String.isEmpty_iff message
  by_cases h : message = ""
  · have hb : message.isEmpty = true := hempty.mpr h
    simp only [setError, hb]
    simp [h]
  · have hb : message.isEmpty = false := by
      cases hm : message.isEmpty
      · rfl
      · exact absurd (hempty.mp hm) h
    simp [setError, hb, h]

/-- Claim C4 (amended): for a non-empty message, `setError(message)` shows the two
error labels and hides the configuration view, the edit, reset and reconfigure
buttons and the advanced check box; it changes the enabled flag of none of the
fourteen controls, and it leaves the toolchain group box, its line edit, browse
button, edit button and two radio buttons, and the progress indicator exactly
as they were. -/
theorem setError_hides_and_keeps_enabled (message : String) (w : CMakeBuildSettingsWidget)
    (hne : message ≠ "") :
    ((setError message w).m_errorLabel.visible = true ∧
        (setError message w).m_errorMessageLabel.visible = true) ∧
      ((setError message w).m_configView.visible = false ∧
        (setError message w).m_editButton.visible = false ∧
        (setError message w).m_resetButton.visible = false ∧
        (setError message w).m_reconfigureButton.visible = false ∧
        (setError message w).m_showAdvancedCheckBox.visible = false) ∧
      ((setError message w).m_configView.enabled = w.m_configView.enabled ∧
        (setError message w).m_editButton.enabled = w.m_editButton.enabled ∧
        (setError message w).m_resetButton.enabled = w.m_resetButton.enabled ∧
        (setError message w).m_reconfigureButton.enabled = w.m_reconfigureButton.enabled ∧
        (setError message w).m_showAdvancedCheckBox.enabled = w.m_showAdvancedCheckBox.enabled ∧
        (setError message w).m_errorLabel.enabled = w.m_errorLabel.enabled ∧
        (setError message w).m_errorMessageLabel.enabled = w.m_errorMessageLabel.enabled ∧
        (setError message w).m_toolchainGroupBox.enabled = w.m_toolchainGroupBox.enabled ∧
        (setError message w).m_toolchainLineEdit.enabled = w.m_toolchainLineEdit.enabled ∧
        (setError message w).m_toolchainFileSelectPushButton.enabled
          = w.m_toolchainFileSelectPushButton.enabled ∧
        (setError message w).m_toolchainEditPushButton.enabled
          = w.m_toolchainEditPushButton.enabled ∧
        (setError message w).m_fileToolchainRadioButton.enabled
          = w.m_fileToolchainRadioButton.enabled ∧
        (setError message w).m_inlineToolchainRadioButton.enabled
          = w.m_inlineToolchainRadioButton.enabled ∧
        (setError message w).m_progressIndicator.enabled = w.m_progressIndicator.enabled) ∧
      ((setError message w).m_toolchainGroupBox = w.m_toolchainGroupBox ∧
        (setError message w).m_toolchainLineEdit = w.m_toolchainLineEdit ∧
        (setError message w).m_toolchainFileSelectPushButton = w.m_toolchainFileSelectPushButton ∧
        (setError message w).m_toolchainEditPushButton = w.m_toolchainEditPushButton ∧
        (setError message w).m_fileToolchainRadioButton = w.m_fileToolchainRadioButton ∧
        (setError message w).m_inlineToolchainRadioButton = w.m_inlineToolchainRadioButton ∧
        (setError message w).m_progressIndicator = w.m_progressIndicator) := by
  have hb : message.isEmpty = false := by
    cases hm : message.isEmpty
    · rfl
    · exact absurd ((String.isEmpty_iff message).mp hm) hne
  simp [setError, hb]

/-- Claim C4 (amended) at the message "CMake failed" on the freshly created
controls. -/
theorem setError_hides_and_keeps_enabled_witness :
    "CMake failed" ≠ "" ∧
      (setError "CMake failed" created).m_editButton.visible = false ∧
      (setError "CMake failed" created).m_editButton.enabled = created.m_editButton.enabled :=
  ⟨by decide,
    (setError_hides_and_keeps_enabled "CMake failed" created (by decide)).2.1.2.1,
    (setError_hides_and_keeps_enabled "CMake failed" created (by decide)).2.2.1.2.1⟩

/-- Claim C4 as written fails: on the widget the constructor leaves, after
`setError("CMake failed")` the error label is shown while the edit button, the
configuration view and the toolchain group box are still enabled, so the rest
of the panel is not disabled. -/
theorem setError_does_not_disable_panel :
    "CMake failed" ≠ "" ∧
      (setError "CMake failed" (construct sampleFileOverride sampleCleanModel)).m_errorLabel.visible
        = true ∧
      (setError "CMake failed" (construct sampleFileOverride sampleCleanModel)).m_editButton.enabled
        = true ∧
      (setError "CMake failed" (construct sampleFileOverride sampleCleanModel)).m_configView.enabled
        = true ∧
      (setError "CMake failed"
        (construct sampleFileOverride sampleCleanModel)).m_toolchainGroupBox.enabled = true ∧
      restOfPanelDisabled
        (setError "CMake failed" (construct sampleFileOverride sampleCleanModel)) = false := by
  decide

/-- Claim C5: the reconfigure button's click hands the build configuration the
model's `configurationChanges()` and `currentToolchainInfo()` of the widget
state at the click, and leaves the group box check state, both radio buttons,
the line edit text and the stored inline text as they were. -/
theorem reconfigureButtonClicked_hands_changes_and_info (bc : CMakeBuildConfiguration ρ)
    (cm : ConfigModel κ) (w : CMakeBuildSettingsWidget) :
    (reconfigureButtonClicked bc cm w).1.config = cm.configurationChanges ∧
      (reconfigureButtonClicked bc cm w).1.info = currentToolchainInfo bc w ∧
      (reconfigureButtonClicked bc cm w).2.m_toolchainGroupBox.checked
        = w.m_toolchainGroupBox.checked ∧
      (reconfigureButtonClicked bc cm w).2.m_fileToolchainRadioButton.checked
        = w.m_fileToolchainRadioButton.checked ∧
      (reconfigureButtonClicked bc cm w).2.m_inlineToolchainRadioButton.checked
        = w.m_inlineToolchainRadioButton.checked ∧
      (reconfigureButtonClicked bc cm w).2.m_toolchainLineEdit.text = w.m_toolchainLineEdit.text ∧
      (reconfigureButtonClicked bc cm w).2.m_toolchainInlineCurrent = w.m_toolchainInlineCurrent :=
  ⟨rfl, rfl, rfl, rfl, rfl, rfl, rfl⟩

/-- Claim C6: after `toolchainRadio()` the line edit and the browse button are
enabled iff the file radio button is checked and the inline edit button iff the
inline radio button is checked (the radio buttons themselves are untouched); so
when at most one radio button is checked the file controls and the inline edit
button are not enabled together, and when neither is checked all three are
disabled. -/
theorem toolchainRadio_enables (bc : CMakeBuildConfiguration ρ) (cm : ConfigModel κ)
    (w : CMakeBuildSettingsWidget) :
    ((toolchainRadio bc cm w).m_fileToolchainRadioButton = w.m_fileToolchainRadioButton ∧
        (toolchainRadio bc cm w).m_inlineToolchainRadioButton = w.m_inlineToolchainRadioButton) ∧
      ((toolchainRadio bc cm w).m_toolchainLineEdit.enabled = true ↔
        w.m_fileToolchainRadioButton.checked = true) ∧
      ((toolchainRadio bc cm w).m_toolchainFileSelectPushButton.enabled = true ↔
        w.m_fileToolchainRadioButton.checked = true) ∧
      ((toolchainRadio bc cm w).m_toolchainEditPushButton.enabled = true ↔
        w.m_inlineToolchainRadioButton.checked = true) ∧
      (¬ (w.m_fileToolchainRadioButton.checked = true ∧
            w.m_inlineToolchainRadioButton.checked = true) →
        ¬ ((toolchainRadio bc cm w).m_toolchainLineEdit.enabled = true ∧
            (toolchainRadio bc cm w).m_toolchainEditPushButton.enabled = true) ∧
          ¬ ((toolchainRadio bc cm w).m_toolchainFileSelectPushButton.enabled = true ∧
            (toolchainRadio bc cm w).m_toolchainEditPushButton.enabled = true)) ∧
      (w.m_fileToolchainRadioButton.checked = false ∧
          w.m_inlineToolchainRadioButton.checked = false →
        (toolchainRadio bc cm w).m_toolchainLineEdit.enabled = false ∧
          (toolchainRadio bc cm w).m_toolchainFileSelectPushButton.enabled = false ∧
          (toolchainRadio bc cm w).m_toolchainEditPushButton.enabled = false) := by
  simp only [toolchainRadio, updateButtonState]
  cases w.m_fileToolchainRadioButton.checked <;> cases w.m_inlineToolchainRadioButton.checked <;>
    simp

/-- Claim C6 on the freshly created controls, where neither radio button is
checked: the line edit, the browse button and the inline edit button all end up
disabled. -/
theorem toolchainRadio_enables_witness :
    (created.m_fileToolchainRadioButton.checked = false ∧
        created.m_inlineToolchainRadioButton.checked = false) ∧
      (toolchainRadio sampleFileOverride sampleCleanModel created).m_toolchainLineEdit.enabled
        = false ∧
      (toolchainRadio sampleFileOverride sampleCleanModel
        created).m_toolchainFileSelectPushButton.enabled = false ∧
      (toolchainRadio sampleFileOverride sampleCleanModel created).m_toolchainEditPushButton.enabled
        = false :=
  ⟨⟨rfl, rfl⟩,
    (toolchainRadio_enables sampleFileOverride sampleCleanModel created).2.2.2.2.2 ⟨rfl, rfl⟩⟩

/-! ### The progress spinner -/

/-- Running a concatenation: run the first part, then the second. -/
theorem run_append (w : CMakeBuildSettingsWidget) (xs ys : List (Event ρ κ)) :
    run w (xs ++ ys) = (run w xs).bind fun w1 => run w1 ys := by
  induction xs generalizing w with
  | nil => rfl
  | cons e es ih =>
    simp only [List.cons_append, run]
    cases step w e with
    | none => rfl
    | some w1 => simpa using ih w1

/-- A `dataAvailable` can always be taken, and leaves the spinner hidden and the
timer not running. -/
theorem step_dataAvailable (w : CMakeBuildSettingsWidget) (bc : CMakeBuildConfiguration ρ)
    (cm : ConfigModel κ) :
    ∃ w1, step w (Event.dataAvailable bc cm) = some w1 ∧
      w1.m_progressIndicator.visible = false ∧ w1.m_showProgressTimerActive = false :=
  ⟨_, rfl, rfl, rfl⟩

/-- Where a visible spinner comes from: it was visible at the start and no
`dataAvailable` came since, or a `timeout` came and no `dataAvailable` after it. -/
theorem run_spinner_visible_cause (evs : List (Event ρ κ)) :
    ∀ w w1 : CMakeBuildSettingsWidget, run w evs = some w1 →
      w1.m_progressIndicator.visible = true →
      (w.m_progressIndicator.visible = true ∧ ∀ e ∈ evs, e.isDataAvailable = false) ∨
        ∃ pre post, evs = pre ++ Event.timeout :: post ∧ ∀ e ∈ post, e.isDataAvailable = false := by
  induction evs with
  | nil =>
    intro w w1 h hv
    simp only [run, Option.some.injEq] at h
    subst h
    exact Or.inl ⟨hv, by simp⟩
  | cons e es ih =>
    intro w w1 h hv
    simp only [run] at h
    cases hs : step w e with
    | none => simp [hs] at h
    | some w2 =>
      rw [hs] at h
      simp only [Option.some_bind] at h
      rcases ih w2 w1 h hv with ⟨hv2, hno⟩ | ⟨pre, post, hsplit, hno⟩
      · cases e with
        | parsingStarted bc cm =>
          left
          simp only [step, Option.some.injEq] at hs
          subst hs
          refine ⟨by simpa [updateButtonState] using hv2, ?_⟩
          intro e he
          rcases List.mem_cons.mp he with rfl | he
          · rfl
          · exact hno e he
        | timeout =>
          right
          exact ⟨[], es, rfl, hno⟩
        | dataAvailable bc cm =>
          simp only [step, Option.some.injEq] at hs
          subst hs
          simp at hv2
      · right
        exact ⟨e :: pre, post, by simp [hsplit], hno⟩

/-- Claim C7: from the constructed widget, along any event sequence the spinner
is visible only if a `timeout` occurred with no `dataAvailable` after it; right
after every `dataAvailable` the spinner is hidden and the timer is not running;
and a stretch of events without a `timeout` that starts with the spinner hidden
(a reload whose `dataAvailable` comes before the timer fires) ends with the
spinner hidden. -/
theorem spinner_visible_only_after_timeout (bc0 : CMakeBuildConfiguration ρ) (cm0 : ConfigModel κ)
    (evs : List (Event ρ κ)) (w : CMakeBuildSettingsWidget)
    (h : run (construct bc0 cm0) evs = some w) :
    (construct bc0 cm0).m_progressIndicator.visible = false ∧
      (w.m_progressIndicator.visible = true →
        ∃ pre post, evs = pre ++ Event.timeout :: post ∧ ∀ e ∈ post, e.isDataAvailable = false) ∧
      (∀ pre bc cm post, evs = pre ++ Event.dataAvailable bc cm :: post →
        ∃ w1, run (construct bc0 cm0) (pre ++ [Event.dataAvailable bc cm]) = some w1 ∧
          w1.m_progressIndicator.visible = false ∧ w1.m_showProgressTimerActive = false) ∧
      (∀ pre reload wp, evs = pre ++ reload → run (construct bc0 cm0) pre = some wp →
        wp.m_progressIndicator.visible = false → (∀ e ∈ reload, e.isTimeout = false) →
        w.m_progressIndicator.visible = false) := by
  have hinit : (construct bc0 cm0).m_progressIndicator.visible = false := by
    simp only [construct, initToolchain, fileToolchainRadioButtonSetChecked,
      inlineToolchainRadioButtonSetChecked, toolchainRadio, updateButtonState, setError,
      updateAdvancedCheckBox, created]
    cases bc0.isParsing <;> cases bc0.cmakeToolchainInfo.toolchainOverride <;> simp [QWidget.create]
  refine ⟨hinit, ?_, ?_, ?_⟩
  · intro hv
    rcases run_spinner_visible_cause evs _ w h hv with ⟨hv0, _⟩ | hex
    · rw [hinit] at hv0
      exact absurd hv0 (by decide)
    · exact hex
  · intro pre bc cm post hsplit
    subst hsplit
    rw [run_append] at h
    cases hp : run (construct bc0 cm0) pre with
    | none => simp [hp] at h
    | some wp =>
      obtain ⟨w1, hstep, hhid, hoff⟩ := step_dataAvailable wp bc cm
      refine ⟨w1, ?_, hhid, hoff⟩
      rw [run_append, hp]
      simp [run, hstep]
  · intro pre reload wp hsplit hp hhidden hnotimeout
    subst hsplit
    rw [run_append, hp] at h
    simp only [Option.some_bind] at h
    cases hv : w.m_progressIndicator.visible with
    | false => rfl
    | true =>
      rcases run_spinner_visible_cause reload wp w h hv with ⟨hv0, _⟩ | ⟨p, q, hsplit, _⟩
      · rw [hhidden] at hv0
        exact absurd hv0 (by decide)
      · have hmem : (Event.timeout : Event ρ κ) ∈ reload := by simp [hsplit]
        have := hnotimeout _ hmem
        simp [Event.isTimeout] at this

/-- Claim C7 on `sampleReloads`: the sequence runs, and its second reload, which
has no `timeout`, ends with the spinner hidden. -/
theorem spinner_visible_only_after_timeout_witness :
    ∃ w, run (construct sampleParsing sampleCleanModel) sampleReloads = some w ∧
      w.m_progressIndicator.visible = false :=
  ⟨_, rfl,
    (spinner_visible_only_after_timeout sampleParsing sampleCleanModel sampleReloads _ rfl).2.2.2
      [Event.timeout, Event.dataAvailable sampleFileOverride sampleCleanModel]
      [Event.parsingStarted sampleParsing sampleCleanModel,
        Event.dataAvailable sampleFileOverride sampleCleanModel]
      _ rfl rfl rfl (by decide)⟩

/-! ### The constructor and the toolchain record -/

/-- The toolchain-override state the constructor leaves: the group box is
checked iff the stored kind is not Disabled, the file radio button iff it is
File, the inline radio button iff it is Inline; the line edit shows the stored
file path and the stored inline text is the stored inline script. -/
theorem construct_toolchain_state (bc : CMakeBuildConfiguration ρ) (cm : ConfigModel κ) :
    (construct bc cm).m_toolchainGroupBox.checked
        = (bc.cmakeToolchainInfo.toolchainOverride != CMakeToolchainOverrideType.Disabled) ∧
      (construct bc cm).m_fileToolchainRadioButton.checked
        = (bc.cmakeToolchainInfo.toolchainOverride == CMakeToolchainOverrideType.File) ∧
      (construct bc cm).m_inlineToolchainRadioButton.checked
        = (bc.cmakeToolchainInfo.toolchainOverride == CMakeToolchainOverrideType.Inline) ∧
      (construct bc cm).m_toolchainLineEdit.text = bc.cmakeToolchainInfo.toolchainFile ∧
      (construct bc cm).m_toolchainInlineCurrent = bc.cmakeToolchainInfo.toolchainInline := by
  obtain ⟨parsing, err, ⟨kind, file, inl, rest⟩⟩ := bc
  cases kind <;> cases parsing <;>
    simp [construct, initToolchain, fileToolchainRadioButtonSetChecked,
      inlineToolchainRadioButtonSetChecked, toolchainRadio, updateButtonState, setError,
      updateAdvancedCheckBox, created, QWidget.create]

/-- When the constructor returns, the reconfigure button is enabled exactly when
the build configuration is not parsing, the stored override kind is not
Disabled, and the model has changes, or CMake changes, or the stored file path
is non-empty. -/
theorem construct_reconfigureButton_enabled_iff (bc : CMakeBuildConfiguration ρ)
    (cm : ConfigModel κ) :
    (construct bc cm).m_reconfigureButton.enabled = true ↔
      bc.isParsing = false ∧
        bc.cmakeToolchainInfo.toolchainOverride ≠ CMakeToolchainOverrideType.Disabled ∧
        (cm.hasChanges = true ∨ cm.hasCMakeChanges = true ∨
          bc.cmakeToolchainInfo.toolchainFile ≠ "") := by
  obtain ⟨parsing, err, ⟨kind, file, inl, rest⟩⟩ := bc
  obtain ⟨changes, cmakeChanges, config⟩ := cm
  cases kind <;> cases parsing <;> cases changes <;> cases cmakeChanges <;>
    simp [construct, initToolchain, fileToolchainRadioButtonSetChecked,
      inlineToolchainRadioButtonSetChecked, toolchainRadio, updateButtonState, setError,
      updateAdvancedCheckBox, created, QWidget.create, currentToolchainInfo, hasToolchainChanges]
  all_goals exact ne_comm

/-- Claim C8 fails on the code: for a build configuration that is not parsing,
with a model reporting neither changes nor CMake changes, and a stored file
override with a file path, the reconfigure button is enabled when the
constructor returns, although the widget's toolchain record equals the stored
one. -/
theorem construct_enables_reconfigure_on_stored_file_override :
    sampleFileOverride.isParsing = false ∧
      sampleCleanModel.hasChanges = false ∧ sampleCleanModel.hasCMakeChanges = false ∧
      currentToolchainInfo sampleFileOverride (construct sampleFileOverride sampleCleanModel)
        = sampleFileOverride.cmakeToolchainInfo ∧
      (construct sampleFileOverride sampleCleanModel).m_reconfigureButton.enabled = true := by
  decide

/-- Claim C9: the widget state the constructor leaves gives
`currentToolchainInfo()` equal to the stored record, whatever its override kind,
file path, inline script and other fields, so the toolchain comparison of
`updateButtonState` on that state is false. -/
theorem construct_currentToolchainInfo_roundtrip (bc : CMakeBuildConfiguration ρ)
    (cm : ConfigModel κ) :
    currentToolchainInfo bc (construct bc cm) = bc.cmakeToolchainInfo ∧
      hasToolchainChanges (currentToolchainInfo bc (construct bc cm)) bc.cmakeToolchainInfo
        = false := by
  have hcur : currentToolchainInfo bc (construct bc cm) = bc.cmakeToolchainInfo := by
    obtain ⟨hg, hf, hi, ht, hs⟩ := construct_toolchain_state bc cm
    unfold currentToolchainInfo
    rw [hg, hf, hi, ht, hs]
    obtain ⟨parsing, err, ⟨kind, file, inl, rest⟩⟩ := bc
    cases kind <;> simp
  refine ⟨hcur, ?_⟩
  rw [hcur]
  simp [hasToolchainChanges]

/-! ### The inline editor -/

/-- Claim C10: `toolchainEdit()` keeps the stored inline script when the dialog is
cancelled (also when the script was empty and the sample was offered: it stays
empty), stores exactly the dialog's content when it is accepted, and in both
cases leaves the group box check state, both radio buttons and the line edit
text as they were. -/
theorem toolchainEdit_stores_accepted_content (sampleToolchain : String)
    (getContent : String → String × Bool) (bc : CMakeBuildConfiguration ρ) (cm : ConfigModel κ)
    (w : CMakeBuildSettingsWidget) :
    ((getContent (if w.m_toolchainInlineCurrent.isEmpty then sampleToolchain
          else w.m_toolchainInlineCurrent)).2 = false →
        (toolchainEdit sampleToolchain getContent bc cm w).m_toolchainInlineCurrent
          = w.m_toolchainInlineCurrent) ∧
      ((getContent (if w.m_toolchainInlineCurrent.isEmpty then sampleToolchain
          else w.m_toolchainInlineCurrent)).2 = true →
        (toolchainEdit sampleToolchain getContent bc cm w).m_toolchainInlineCurrent
          = (getContent (if w.m_toolchainInlineCurrent.isEmpty then sampleToolchain
              else w.m_toolchainInlineCurrent)).1) ∧
      (w.m_toolchainInlineCurrent = "" → (getContent sampleToolchain).2 = false →
        (toolchainEdit sampleToolchain getContent bc cm w).m_toolchainInlineCurrent = "") ∧
      (toolchainEdit sampleToolchain getContent bc cm w).m_toolchainGroupBox.checked
        = w.m_toolchainGroupBox.checked ∧
      (toolchainEdit sampleToolchain getContent bc cm w).m_fileToolchainRadioButton
        = w.m_fileToolchainRadioButton ∧
      (toolchainEdit sampleToolchain getContent bc cm w).m_inlineToolchainRadioButton
        = w.m_inlineToolchainRadioButton ∧
      (toolchainEdit sampleToolchain getContent bc cm w).m_toolchainLineEdit.text
        = w.m_toolchainLineEdit.text := by
  have hkeep : ∀ w1 : CMakeBuildSettingsWidget,
      (updateButtonState bc cm w1).m_toolchainInlineCurrent = w1.m_toolchainInlineCurrent ∧
        (updateButtonState bc cm w1).m_toolchainGroupBox = w1.m_toolchainGroupBox ∧
        (updateButtonState bc cm w1).m_fileToolchainRadioButton = w1.m_fileToolchainRadioButton ∧
        (updateButtonState bc cm w1).m_inlineToolchainRadioButton
          = w1.m_inlineToolchainRadioButton ∧
        (updateButtonState bc cm w1).m_toolchainLineEdit = w1.m_toolchainLineEdit :=
    fun _ => ⟨rfl, rfl, rfl, rfl, rfl⟩
  unfold toolchainEdit
  by_cases hempty : w.m_toolchainInlineCurrent = ""
  · have hb : w.m_toolchainInlineCurrent.isEmpty = true :=
      (String.isEmpty_iff _).mpr hempty
    simp only [hb, if_true]
    rcases hg : getContent sampleToolchain with ⟨content, ok⟩
    cases ok <;> simp [hkeep, hempty]
  · have hb : w.m_toolchainInlineCurrent.isEmpty = false := by
      cases hm : w.m_toolchainInlineCurrent.isEmpty
      · rfl
      · exact absurd ((String.isEmpty_iff _).mp hm) hempty
    simp only [hb, Bool.false_eq_true, if_false]
    rcases hg : getContent w.m_toolchainInlineCurrent with ⟨content, ok⟩
    cases ok <;> simp [hkeep, hempty]

/-- Claim C10 on the freshly created controls, whose stored inline script is
empty: the sample is offered, the dialog is cancelled, and the stored script
stays empty. -/
theorem toolchainEdit_stores_accepted_content_witness :
    created.m_toolchainInlineCurrent = "" ∧
      (toolchainEdit "set(CMAKE_SYSTEM_NAME Linux)" (fun offered => (offered, false))
        sampleFileOverride sampleCleanModel created).m_toolchainInlineCurrent = "" :=
  ⟨rfl,
    (toolchainEdit_stores_accepted_content "set(CMAKE_SYSTEM_NAME Linux)"
      (fun offered => (offered, false)) sampleFileOverride sampleCleanModel created).2.2.1 rfl rfl⟩

end CMakeBuildSettingsWidget
end Internal
end CMakeProjectManager
